import Mathlib

/-!
# Verification of the dashboard filter/aggregation engine

Shallow embedding of the dashboard source (`dashboard.js`, full variant):
the date normalizer `parseDateDDMMYYYY`, the day arithmetic `dayDifference`
and `addDays`, the filter predicate of `renderAllCharts`, and the per-chart
aggregators of `renderLineChart`, `renderBarChart`, `renderPieChart` and
`renderMapChart`.

JavaScript `Date` values are modelled as integer milliseconds since the Unix
epoch with the host environment fixed at UTC (the code never depends on a
particular zone; without this assumption its output is environment-dependent).
The proleptic-Gregorian civil calendar used by ECMAScript `Date` is embedded
by the pair `civilFromDays` / `daysFromCivil`; `daysFromCivil_civilFromDays`
proves they are mutually inverse, which is the fact the ECMAScript functions
`YearFromTime`/`MonthFromTime`/`DateFromTime` and `MakeDay` satisfy.
The ±8.64e15 ms range clip of `Date` is not modelled (all dates in scope are
far below it); `NaN` propagation is modelled with `Option`, and a thrown
exception (e.g. `toISOString` on an Invalid Date) with `Except.error`.
On `Int`, `/` and `%` are Euclidean division/remainder, which for the
positive divisors used here coincide with the floor division of JavaScript's
`Math.floor(a / b)` and the ECMAScript `modulo` operation.
-/

/-- Day-of-era base of a year-of-era `yoe` in a 400-year Gregorian era that
starts on 1 March: days from the era start to 1 March of year `yoe` of the
era. -/
def doyBase (yoe : Int) : Int := 365 * yoe + yoe / 4 - yoe / 100

/-- Year-of-era containing a day-of-era `doe ∈ [0, 146096]`: the largest
`yoe ≤ 399` with `doyBase yoe ≤ doe`, computed from the approximation
`doe / 365` with a single downward correction. -/
def yoeFromDoe (doe : Int) : Int :=
  if doyBase (doe / 365) ≤ doe ∧ doe / 365 ≤ 399 then doe / 365
  else doe / 365 - 1

/-- Civil (proleptic Gregorian) calendar date: year, month `1..12`,
day-of-month `1..31`. -/
structure Civil where
  year : Int
  month : Int
  day : Int
deriving DecidableEq

/-- Month (civil, `1..12`) of a March-based day-of-year; the branch bounds are
the cumulative March-based month lengths 31,30,31,30,31,31,30,31,30,31,31,29. -/
def monthOfDoy (doy : Int) : Int :=
  if doy < 31 then 3 else if doy < 61 then 4 else if doy < 92 then 5
  else if doy < 122 then 6 else if doy < 153 then 7 else if doy < 184 then 8
  else if doy < 214 then 9 else if doy < 245 then 10 else if doy < 275 then 11
  else if doy < 306 then 12 else if doy < 337 then 1 else 2

/-- Day-of-month (`1..31`) of a March-based day-of-year. -/
def domOfDoy (doy : Int) : Int :=
  if doy < 31 then doy + 1 else if doy < 61 then doy - 30
  else if doy < 92 then doy - 60 else if doy < 122 then doy - 91
  else if doy < 153 then doy - 121 else if doy < 184 then doy - 152
  else if doy < 214 then doy - 183 else if doy < 245 then doy - 213
  else if doy < 275 then doy - 244 else if doy < 306 then doy - 274
  else if doy < 337 then doy - 305 else doy - 336

/-- Civil date of an era/day-of-era pair.  Models the ECMAScript
`YearFromTime`/`MonthFromTime`/`DateFromTime` decomposition of a time value
via the standard March-based 400-year-era arithmetic (January and February
belong to the following civil year). -/
def civilOfEraDoe (era doe : Int) : Civil :=
  let doy := doe - doyBase (yoeFromDoe doe)
  ⟨yoeFromDoe doe + era * 400 + (if doy < 306 then 0 else 1),
   monthOfDoy doy, domOfDoy doy⟩

/-- Civil date of a day number: decompose into 400-year era and day-of-era,
then delegate to `civilOfEraDoe`. -/
def civilFromDays (z : Int) : Civil :=
  civilOfEraDoe ((z + 719468) / 146097) ((z + 719468) % 146097)

/-- Day number (days since 1970-01-01, UTC) of a civil date with month in
`1..12`; linear in `d`, so it also realises the ECMAScript `MakeDay`
day-of-month rollover (any integer `d` is meaningful). -/
def daysFromCivil (y m d : Int) : Int :=
  let yy := if m ≤ 2 then y - 1 else y
  let era := yy / 400
  let yoe := yy % 400
  let mp := if m ≤ 2 then m + 9 else m - 3
  let mst :=
    if mp = 0 then 0 else if mp = 1 then 31 else if mp = 2 then 61
    else if mp = 3 then 92 else if mp = 4 then 122 else if mp = 5 then 153
    else if mp = 6 then 184 else if mp = 7 then 214 else if mp = 8 then 245
    else if mp = 9 then 275 else if mp = 10 then 306 else 337
  era * 146097 + doyBase yoe + mst + d - 1 - 719468

/-- The year-of-era selected by `yoeFromDoe` lies in `[0, 399]` and its
day-of-year base bounds the day-of-era from below. -/
theorem yoeFromDoe_bounds (doe : Int) (h0 : 0 ≤ doe) (h1 : doe ≤ 146096) :
    0 ≤ yoeFromDoe doe ∧ yoeFromDoe doe ≤ 399 := by
  simp only [yoeFromDoe, doyBase]
  split_ifs <;> omega

/-- `daysFromCivil` at literal month 3 of civil year `yoe + era * 400`. -/
theorem dfc_at_3 (era yoe d : Int) (h0 : 0 ≤ yoe) (h1 : yoe ≤ 399) :
    daysFromCivil (yoe + era * 400) 3 d
      = era * 146097 + doyBase yoe + 0 + d - 1 - 719468 := by
  simp [daysFromCivil, doyBase]; omega

/-- `daysFromCivil` at literal month 4 of civil year `yoe + era * 400`. -/
theorem dfc_at_4 (era yoe d : Int) (h0 : 0 ≤ yoe) (h1 : yoe ≤ 399) :
    daysFromCivil (yoe + era * 400) 4 d
      = era * 146097 + doyBase yoe + 31 + d - 1 - 719468 := by
  simp [daysFromCivil, doyBase]; omega

/-- `daysFromCivil` at literal month 5 of civil year `yoe + era * 400`. -/
theorem dfc_at_5 (era yoe d : Int) (h0 : 0 ≤ yoe) (h1 : yoe ≤ 399) :
    daysFromCivil (yoe + era * 400) 5 d
      = era * 146097 + doyBase yoe + 61 + d - 1 - 719468 := by
  simp [daysFromCivil, doyBase]; omega

/-- `daysFromCivil` at literal month 6 of civil year `yoe + era * 400`. -/
theorem dfc_at_6 (era yoe d : Int) (h0 : 0 ≤ yoe) (h1 : yoe ≤ 399) :
    daysFromCivil (yoe + era * 400) 6 d
      = era * 146097 + doyBase yoe + 92 + d - 1 - 719468 := by
  simp [daysFromCivil, doyBase]; omega

/-- `daysFromCivil` at literal month 7 of civil year `yoe + era * 400`. -/
theorem dfc_at_7 (era yoe d : Int) (h0 : 0 ≤ yoe) (h1 : yoe ≤ 399) :
    daysFromCivil (yoe + era * 400) 7 d
      = era * 146097 + doyBase yoe + 122 + d - 1 - 719468 := by
  simp [daysFromCivil, doyBase]; omega

/-- `daysFromCivil` at literal month 8 of civil year `yoe + era * 400`. -/
theorem dfc_at_8 (era yoe d : Int) (h0 : 0 ≤ yoe) (h1 : yoe ≤ 399) :
    daysFromCivil (yoe + era * 400) 8 d
      = era * 146097 + doyBase yoe + 153 + d - 1 - 719468 := by
  simp [daysFromCivil, doyBase]; omega

/-- `daysFromCivil` at literal month 9 of civil year `yoe + era * 400`. -/
theorem dfc_at_9 (era yoe d : Int) (h0 : 0 ≤ yoe) (h1 : yoe ≤ 399) :
    daysFromCivil (yoe + era * 400) 9 d
      = era * 146097 + doyBase yoe + 184 + d - 1 - 719468 := by
  simp [daysFromCivil, doyBase]; omega

/-- `daysFromCivil` at literal month 10 of civil year `yoe + era * 400`. -/
theorem dfc_at_10 (era yoe d : Int) (h0 : 0 ≤ yoe) (h1 : yoe ≤ 399) :
    daysFromCivil (yoe + era * 400) 10 d
      = era * 146097 + doyBase yoe + 214 + d - 1 - 719468 := by
  simp [daysFromCivil, doyBase]; omega

/-- `daysFromCivil` at literal month 11 of civil year `yoe + era * 400`. -/
theorem dfc_at_11 (era yoe d : Int) (h0 : 0 ≤ yoe) (h1 : yoe ≤ 399) :
    daysFromCivil (yoe + era * 400) 11 d
      = era * 146097 + doyBase yoe + 245 + d - 1 - 719468 := by
  simp [daysFromCivil, doyBase]; omega

/-- `daysFromCivil` at literal month 12 of civil year `yoe + era * 400`. -/
theorem dfc_at_12 (era yoe d : Int) (h0 : 0 ≤ yoe) (h1 : yoe ≤ 399) :
    daysFromCivil (yoe + era * 400) 12 d
      = era * 146097 + doyBase yoe + 275 + d - 1 - 719468 := by
  simp [daysFromCivil, doyBase]; omega

/-- `daysFromCivil` at literal month 1 of civil year `yoe + era * 400 + 1`
(January belongs to the next civil year of the March-based split). -/
theorem dfc_at_1 (era yoe d : Int) (h0 : 0 ≤ yoe) (h1 : yoe ≤ 399) :
    daysFromCivil (yoe + era * 400 + 1) 1 d
      = era * 146097 + doyBase yoe + 306 + d - 1 - 719468 := by
  simp [daysFromCivil, doyBase]; omega

/-- `daysFromCivil` at literal month 2 of civil year `yoe + era * 400 + 1`
(February belongs to the next civil year of the March-based split). -/
theorem dfc_at_2 (era yoe d : Int) (h0 : 0 ≤ yoe) (h1 : yoe ≤ 399) :
    daysFromCivil (yoe + era * 400 + 1) 2 d
      = era * 146097 + doyBase yoe + 337 + d - 1 - 719468 := by
  simp [daysFromCivil, doyBase]; omega

/-- Recomposing a March-based (year-adjust, month, day-of-month) split of an
arbitrary day-of-year yields the starting day number back. -/
theorem daysFromCivil_parts (era yoe doy : Int) (h0 : 0 ≤ yoe) (h1 : yoe ≤ 399) :
    daysFromCivil (yoe + era * 400 + (if doy < 306 then 0 else 1))
      (monthOfDoy doy) (domOfDoy doy) = era * 146097 + doyBase yoe + doy - 719468 := by
  rcases lt_or_le doy 31 with b | c1
  · rw [if_pos (show doy < 306 by omega), add_zero]
    simp only [monthOfDoy, domOfDoy, if_pos b]
    rw [dfc_at_3 _ _ _ h0 h1]; omega
  rcases lt_or_le doy 61 with b | c2
  · rw [if_pos (show doy < 306 by omega), add_zero]
    simp only [monthOfDoy, domOfDoy, if_neg (show ¬ doy < 31 by omega), if_pos b]
    rw [dfc_at_4 _ _ _ h0 h1]; omega
  rcases lt_or_le doy 92 with b | c3
  · rw [if_pos (show doy < 306 by omega), add_zero]
    simp only [monthOfDoy, domOfDoy, if_neg (show ¬ doy < 31 by omega),
      if_neg (show ¬ doy < 61 by omega), if_pos b]
    rw [dfc_at_5 _ _ _ h0 h1]; omega
  rcases lt_or_le doy 122 with b | c4
  · rw [if_pos (show doy < 306 by omega), add_zero]
    simp only [monthOfDoy, domOfDoy, if_neg (show ¬ doy < 31 by omega),
      if_neg (show ¬ doy < 61 by omega), if_neg (show ¬ doy < 92 by omega), if_pos b]
    rw [dfc_at_6 _ _ _ h0 h1]; omega
  rcases lt_or_le doy 153 with b | c5
  · rw [if_pos (show doy < 306 by omega), add_zero]
    simp only [monthOfDoy, domOfDoy, if_neg (show ¬ doy < 31 by omega),
      if_neg (show ¬ doy < 61 by omega), if_neg (show ¬ doy < 92 by omega),
      if_neg (show ¬ doy < 122 by omega), if_pos b]
    rw [dfc_at_7 _ _ _ h0 h1]; omega
  rcases lt_or_le doy 184 with b | c6
  · rw [if_pos (show doy < 306 by omega), add_zero]
    simp only [monthOfDoy, domOfDoy, if_neg (show ¬ doy < 31 by omega),
      if_neg (show ¬ doy < 61 by omega), if_neg (show ¬ doy < 92 by omega),
      if_neg (show ¬ doy < 122 by omega), if_neg (show ¬ doy < 153 by omega), if_pos b]
    rw [dfc_at_8 _ _ _ h0 h1]; omega
  rcases lt_or_le doy 214 with b | c7
  · rw [if_pos (show doy < 306 by omega), add_zero]
    simp only [monthOfDoy, domOfDoy, if_neg (show ¬ doy < 31 by omega),
      if_neg (show ¬ doy < 61 by omega), if_neg (show ¬ doy < 92 by omega),
      if_neg (show ¬ doy < 122 by omega), if_neg (show ¬ doy < 153 by omega),
      if_neg (show ¬ doy < 184 by omega), if_pos b]
    rw [dfc_at_9 _ _ _ h0 h1]; omega
  rcases lt_or_le doy 245 with b | c8
  · rw [if_pos (show doy < 306 by omega), add_zero]
    simp only [monthOfDoy, domOfDoy, if_neg (show ¬ doy < 31 by omega),
      if_neg (show ¬ doy < 61 by omega), if_neg (show ¬ doy < 92 by omega),
      if_neg (show ¬ doy < 122 by omega), if_neg (show ¬ doy < 153 by omega),
      if_neg (show ¬ doy < 184 by omega), if_neg (show ¬ doy < 214 by omega), if_pos b]
    rw [dfc_at_10 _ _ _ h0 h1]; omega
  rcases lt_or_le doy 275 with b | c9
  · rw [if_pos (show doy < 306 by omega), add_zero]
    simp only [monthOfDoy, domOfDoy, if_neg (show ¬ doy < 31 by omega),
      if_neg (show ¬ doy < 61 by omega), if_neg (show ¬ doy < 92 by omega),
      if_neg (show ¬ doy < 122 by omega), if_neg (show ¬ doy < 153 by omega),
      if_neg (show ¬ doy < 184 by omega), if_neg (show ¬ doy < 214 by omega),
      if_neg (show ¬ doy < 245 by omega), if_pos b]
    rw [dfc_at_11 _ _ _ h0 h1]; omega
  rcases lt_or_le doy 306 with b | c10
  · rw [if_pos (show doy < 306 by omega), add_zero]
    simp only [monthOfDoy, domOfDoy, if_neg (show ¬ doy < 31 by omega),
      if_neg (show ¬ doy < 61 by omega), if_neg (show ¬ doy < 92 by omega),
      if_neg (show ¬ doy < 122 by omega), if_neg (show ¬ doy < 153 by omega),
      if_neg (show ¬ doy < 184 by omega), if_neg (show ¬ doy < 214 by omega),
      if_neg (show ¬ doy < 245 by omega), if_neg (show ¬ doy < 275 by omega), if_pos b]
    rw [dfc_at_12 _ _ _ h0 h1]; omega
  rcases lt_or_le doy 337 with b | c11
  · rw [if_neg (show ¬ doy < 306 by omega)]
    simp only [monthOfDoy, domOfDoy, if_neg (show ¬ doy < 31 by omega),
      if_neg (show ¬ doy < 61 by omega), if_neg (show ¬ doy < 92 by omega),
      if_neg (show ¬ doy < 122 by omega), if_neg (show ¬ doy < 153 by omega),
      if_neg (show ¬ doy < 184 by omega), if_neg (show ¬ doy < 214 by omega),
      if_neg (show ¬ doy < 245 by omega), if_neg (show ¬ doy < 275 by omega),
      if_neg (show ¬ doy < 306 by omega), if_pos b]
    rw [dfc_at_1 _ _ _ h0 h1]; omega
  · rw [if_neg (show ¬ doy < 306 by omega)]
    simp only [monthOfDoy, domOfDoy, if_neg (show ¬ doy < 31 by omega),
      if_neg (show ¬ doy < 61 by omega), if_neg (show ¬ doy < 92 by omega),
      if_neg (show ¬ doy < 122 by omega), if_neg (show ¬ doy < 153 by omega),
      if_neg (show ¬ doy < 184 by omega), if_neg (show ¬ doy < 214 by omega),
      if_neg (show ¬ doy < 245 by omega), if_neg (show ¬ doy < 275 by omega),
      if_neg (show ¬ doy < 306 by omega), if_neg (show ¬ doy < 337 by omega)]
    rw [dfc_at_2 _ _ _ h0 h1]; omega

/-- Recomposing a civil date produced from an era/day-of-era pair yields the
day number `era * 146097 + doe - 719468` of that pair. -/
theorem daysFromCivil_civilOfEraDoe (era doe : Int) (h0 : 0 ≤ doe)
    (h1 : doe ≤ 146096) :
    daysFromCivil (civilOfEraDoe era doe).year (civilOfEraDoe era doe).month
      (civilOfEraDoe era doe).day = era * 146097 + doe - 719468 := by
  have h := yoeFromDoe_bounds doe h0 h1
  have key := daysFromCivil_parts era (yoeFromDoe doe)
    (doe - doyBase (yoeFromDoe doe)) h.1 h.2
  simp only [civilOfEraDoe]
  rw [key]
  omega

/-- Round trip: recomposing the civil decomposition of any day number yields
the day number back.  This is the correctness core of the calendar model. -/
theorem daysFromCivil_civilFromDays (z : Int) :
    daysFromCivil (civilFromDays z).year (civilFromDays z).month
      (civilFromDays z).day = z := by
  have h := daysFromCivil_civilOfEraDoe ((z + 719468) / 146097)
    ((z + 719468) % 146097) (by omega) (by omega)
  simp only [civilFromDays]
  omega

/-- `msPerDay = 24 * 60 * 60 * 1000` of the source (line 490). -/
def msPerDay : Int := 24 * 60 * 60 * 1000

/-- `dayDifference(d1, d2)` (source lines 489-492):
`Math.floor((d2 - d1) / msPerDay)`; Euclidean `/` by the positive constant
`msPerDay` is exactly this floor. -/
def dayDifference (d1 d2 : Int) : Int := (d2 - d1) / msPerDay

/-- `addDays(baseDate, n)` (source lines 495-499): clone the date, then
`setDate(getDate() + n)` — decompose into civil components keeping the time
of day, add `n` to the day of month and recompose with `MakeDay` rollover. -/
def addDays (baseDate n : Int) : Int :=
  let z := baseDate / msPerDay
  let r := baseDate % msPerDay
  let c := civilFromDays z
  daysFromCivil c.year c.month (c.day + n) * msPerDay + r

/-- `daysFromCivil` is linear in the day-of-month argument. -/
theorem daysFromCivil_add (y m d k : Int) :
    daysFromCivil y m (d + k) = daysFromCivil y m d + k := by
  simp only [daysFromCivil]
  ring

/-- `addDays` moves a time value by exactly `n` whole days. -/
theorem addDays_eq (ms n : Int) : addDays ms n = ms + n * msPerDay := by
  have h := daysFromCivil_civilFromDays (ms / msPerDay)
  simp only [addDays, daysFromCivil_add, msPerDay] at *
  omega

/-- Decimal digit character of `n % 10`. -/
def digitOf (n : Nat) : Char := Char.ofNat (48 + n % 10)

/-- Four-digit decimal rendering, as `toISOString` prints years `0..9999`
(the extended `±YYYYYY` form for years outside that range is not modelled;
every date in scope lies inside it). -/
def pad4 (n : Int) : String :=
  String.mk [digitOf (n.toNat / 1000), digitOf (n.toNat / 100),
    digitOf (n.toNat / 10), digitOf n.toNat]

/-- Two-digit decimal rendering for months and days. -/
def pad2 (n : Int) : String :=
  String.mk [digitOf (n.toNat / 10), digitOf n.toNat]

/-- The date part `"YYYY-MM-DD"` of `Date.prototype.toISOString` for a (UTC)
day number, i.e. `toISOString().split('T')[0]`. -/
def isoDateOfDay (z : Int) : String :=
  pad4 (civilFromDays z).year ++ "-" ++ pad2 (civilFromDays z).month
    ++ "-" ++ pad2 (civilFromDays z).day

/-- Numeric value of a list of decimal digit characters. -/
def digitsVal (l : List Char) : Nat :=
  l.foldl (fun a c => 10 * a + (c.toNat - 48)) 0

/-- ECMAScript `parseInt(s, 10)` restricted to the shapes reachable here:
the value of the longest leading run of decimal digits, `NaN` (`none`) when
the string does not start with a digit.  Sign prefixes and leading
whitespace, which do not occur in `DD.MM.YYYY` fields, are not modelled. -/
def parseIntJS (s : String) : Option Int :=
  let t := s.data.takeWhile Char.isDigit
  if t = [] then none else some (digitsVal t : Int)

/-- ECMAScript `ToNumber` on a string, restricted likewise: the value of an
all-digit string, `NaN` (`none`) otherwise.  The empty string (which
`ToNumber` maps to 0) is guarded out by the caller before the coercion. -/
def toNumberJS (s : String) : Option Int :=
  if s.data ≠ [] ∧ s.data.all Char.isDigit then some (digitsVal s.data : Int)
  else none

/-- Day number produced by `new Date(y, m0, d)` with a 0-based month:
two-digit years map to `1900 + y`, and the month is normalised exactly as in
the ECMAScript `MakeDay` (surplus months roll into years — Euclidean div/mod
by 12 — and surplus days roll into months via `daysFromCivil` linearity). -/
def jsMakeDay (y m0 d : Int) : Int :=
  let yr := if 0 ≤ y ∧ y ≤ 99 then y + 1900 else y
  daysFromCivil (yr + m0 / 12) (m0 % 12 + 1) d

/-- `new Date(y, m0, d)` as milliseconds since the epoch; `none` models the
`NaN` time value obtained when an argument is `NaN`. -/
def mkDateMs (y m0 d : Option Int) : Option Int :=
  match y, m0, d with
  | some y, some m0, some d => some (jsMakeDay y m0 d * msPerDay)
  | _, _, _ => none

/-- `split` on a single-character separator, implemented structurally on the
character list so that it evaluates by definitional reduction.  It computes
exactly JavaScript's `s.split('.')` (and `String.splitOn "."`): the empty
string yields one empty part, a trailing separator a trailing empty part. -/
def splitOnChar (sep : Char) : List Char → List (List Char)
  | [] => [[]]
  | c :: cs =>
      match splitOnChar sep cs with
      | [] => [[]]
      | part :: rest => if c = sep then [] :: part :: rest else (c :: part) :: rest

/-- The `i`-th `.`-separated part of a date string (`""` when missing, as a
destructured `undefined` is falsy exactly like `""`). -/
def datePart (s : String) (i : Nat) : String :=
  String.mk ((splitOnChar '.' s.data).getD i [])

/-- Core of `parseDateDDMMYYYY` (source lines 477-486) up to the day number
of the constructed `Date`.  `""` (falsy input) and missing/empty parts yield
`.ok none` — the function returns `null`; when a part is non-numeric the
`Date` holds `NaN` and `toISOString` throws a `RangeError`, modelled as
`.error ()`.  `split('.')` is `String.splitOn "."`; a missing destructured
part is `undefined`, which the `!day || !month || !year` test treats exactly
like the default `""`. -/
def parseDateCoreDay (dateStr : String) : Except Unit (Option Int) :=
  if dateStr = "" then .ok none
  else
    let day := datePart dateStr 0
    let month := datePart dateStr 1
    let year := datePart dateStr 2
    if day = "" ∨ month = "" ∨ year = "" then .ok none
    else
      match mkDateMs (toNumberJS year) ((parseIntJS month).map (fun x => x - 1))
          (parseIntJS day) with
      | some ms => .ok (some (ms / msPerDay))
      | none => .error ()

/-- `parseDateDDMMYYYY` (source lines 477-486): `"DD.MM.YYYY"` to the ISO
date string `"YYYY-MM-DD"` via `toISOString().split('T')[0]`. -/
def parseDateDDMMYYYY (dateStr : String) : Except Unit (Option String) :=
  (parseDateCoreDay dateStr).map (Option.map isoDateOfDay)

/-- A dataset row: the four CSV fields the core reads (an absent field is the
empty string, which is exactly the falsy case the source tests for) plus the
`offsetDays` annotation computed at load time (`null` is `none`). -/
structure Row where
  region : String
  product : String
  device_created_day : String
  device_type_category : String
  offsetDays : Option Int
deriving DecidableEq

/-- The filter dimensions read by `renderAllCharts` (source lines 206-216):
the two `<select>` values (`""` when unset) and the two slider handles. -/
structure FilterState where
  regionFilter : String
  deviceTypeFilter : String
  offsetMin : Int
  offsetMax : Int
deriving DecidableEq

/-- The row predicate of `rawData.filter` in `renderAllCharts`
(source lines 219-227), early returns and all. -/
def rowPasses (fs : FilterState) (row : Row) : Bool :=
  if fs.regionFilter ≠ "" ∧ row.region ≠ fs.regionFilter then false
  else if fs.deviceTypeFilter ≠ "" ∧ row.device_type_category ≠ fs.deviceTypeFilter
    then false
  else
    match row.offsetDays with
    | none => false
    | some d => if d < fs.offsetMin ∨ d > fs.offsetMax then false else true

/-- The filter engine: `const filtered = rawData.filter(...)` of
`renderAllCharts`. -/
def filterData (rawData : List Row) (fs : FilterState) : List Row :=
  rawData.filter (rowPasses fs)

/-- The retention condition exactly as the specification phrases it: region
filter unset or matching, category filter unset or matching, day offset
defined and inside the inclusive offset range. -/
def specRetains (fs : FilterState) (row : Row) : Prop :=
  (fs.regionFilter = "" ∨ row.region = fs.regionFilter) ∧
  (fs.deviceTypeFilter = "" ∨ row.device_type_category = fs.deviceTypeFilter) ∧
  ∃ d, row.offsetDays = some d ∧ fs.offsetMin ≤ d ∧ d ≤ fs.offsetMax

instance specRetainsDecidable (fs : FilterState) (row : Row) :
    Decidable (specRetains fs row) :=
  match h : row.offsetDays with
  | none => isFalse (fun hc => by
      obtain ⟨_, _, d, hd, _⟩ := hc
      rw [h] at hd
      exact Option.noConfusion hd)
  | some a =>
      decidable_of_iff
        ((fs.regionFilter = "" ∨ row.region = fs.regionFilter) ∧
          (fs.deviceTypeFilter = "" ∨ row.device_type_category = fs.deviceTypeFilter) ∧
          fs.offsetMin ≤ a ∧ a ≤ fs.offsetMax)
        (by
          constructor
          · rintro ⟨h1, h2, h3⟩
            exact ⟨h1, h2, a, h, h3⟩
          · rintro ⟨h1, h2, d, hd, h3⟩
            rw [h] at hd
            obtain rfl := (Option.some.inj hd).symm
            exact ⟨h1, h2, h3⟩)

/-- `Map.set(k, (get(k) || 0) + 1)` on an insertion-ordered association list:
an existing key keeps its position (a JavaScript `Map` updates in place), a
new key is appended at the end. -/
def bump (acc : List (String × Nat)) (k : String) : List (String × Nat) :=
  match acc with
  | [] => [(k, 1)]
  | (q, v) :: rest => if q = k then (q, v + 1) :: rest else (q, v) :: bump rest k

/-- Counting `data.forEach` over rows keyed by `key`: the `Map` of
`renderBarChart` / `renderPieChart` in insertion order. -/
def countBy (key : Row → String) (data : List Row) : List (String × Nat) :=
  data.foldl (fun acc row => bump acc (key row)) []

/-- `row.device_type_category || 'Unknown'` (source line 401). -/
def barKey (row : Row) : String :=
  if row.device_type_category = "" then "Unknown" else row.device_type_category

/-- `row.product || 'Unknown'` (source line 451). -/
def pieKey (row : Row) : String :=
  if row.product = "" then "Unknown" else row.product

/-- The `typeCounts` map of `renderBarChart` (source lines 397-408). -/
def renderBarChartCounts (data : List Row) : List (String × Nat) :=
  countBy barKey data

/-- The `productCounts` map of `renderPieChart` (source lines 447-457). -/
def renderPieChartCounts (data : List Row) : List (String × Nat) :=
  countBy pieKey data

/-- Sum of the emitted counts of an aggregated series. -/
def sumCounts (l : List (String × Nat)) : Nat := (l.map Prod.snd).sum

/-- The keys of a list in insertion order of first encounter. -/
def dedupFirst (l : List String) : List String :=
  l.foldl (fun acc k => if k ∈ acc then acc else acc ++ [k]) []

/-- The per-region counting `data.forEach` of `renderMapChart`
(source lines 249-257), including the re-applied region and device-type
checks. -/
def regionCountsMap (fs : FilterState) (data : List Row) : List (String × Nat) :=
  data.foldl (fun acc row =>
    if row.region = "" then acc
    else if fs.regionFilter ≠ "" ∧ row.region ≠ fs.regionFilter then acc
    else if fs.deviceTypeFilter ≠ "" ∧ row.device_type_category ≠ fs.deviceTypeFilter
      then acc
    else bump acc row.region) []

/-- The same per-region count with the two re-applied filter checks removed —
the comparison point of the redundancy (refinement) claim. -/
def regionCountsNoInner (data : List Row) : List (String × Nat) :=
  data.foldl (fun acc row =>
    if row.region = "" then acc else bump acc row.region) []

/-- The `citicenPerRegion` population table (source lines 91-101). -/
def citicenPerRegion (r : String) : Option ℚ :=
  if r = "Wien" then some 2000000
  else if r = "Niederösterreich" then some 1730000
  else if r = "Oberösterreich" then some 1530000
  else if r = "Salzburg" then some 570000
  else if r = "Steiermark" then some 1200000
  else if r = "Kärnten" then some 580000
  else if r = "Tirol" then some 780000
  else if r = "Vorarlberg" then some 410000
  else if r = "Burgenland" then some 300000
  else none

/-- The `regionCounts.forEach` of `renderMapChart` that builds the paired
`locations`/`zValues` arrays (source lines 260-270), as label/value pairs;
exact rationals stand in for JS floats, so `count / total * 100` is exact.
`citicenPerRegion[regionName] || 1` is the `getD 1` fallback. -/
def zValuesRel (isRelative : Bool) (counts : List (String × Nat)) :
    List (String × ℚ) :=
  counts.map (fun p =>
    (p.1, if isRelative then (p.2 : ℚ) / ((citicenPerRegion p.1).getD 1) * 100
          else (p.2 : ℚ)))

/-- A stored map viewport: center coordinate and base zoom. -/
structure RView where
  lat : ℚ
  lon : ℚ
  zoom : ℚ
deriving DecidableEq

/-- The `regionView` viewport table (source lines 78-88). -/
def regionView (r : String) : Option RView :=
  if r = "Wien" then some ⟨48.210033, 16.363449, 8⟩
  else if r = "Niederösterreich" then some ⟨48.2186, 15.8040, 5.9⟩
  else if r = "Oberösterreich" then some ⟨48.1000, 13.9720, 6⟩
  else if r = "Salzburg" then some ⟨47.5095, 13.0550, 6⟩
  else if r = "Steiermark" then some ⟨47.2593, 15.0890, 6⟩
  else if r = "Kärnten" then some ⟨46.836, 13.8122, 6⟩
  else if r = "Tirol" then some ⟨47.2682, 11.4041, 6⟩
  else if r = "Vorarlberg" then some ⟨47.2478, 9.9016, 6.5⟩
  else if r = "Burgenland" then some ⟨47.5167, 16.3667, 6⟩
  else none

/-- Viewport choice of `renderMapChart` (source lines 289-296): the fixed
country-wide default `{lat 47.7, lon 13.3, zoom 5.2}` unless a region is
selected (`regionFilter` truthy) and has a stored view. -/
def mapCenterZoom (regionFilter : String) : RView :=
  match regionView regionFilter with
  | some v => if regionFilter = "" then ⟨47.7, 13.3, 5.2⟩ else v
  | none => ⟨47.7, 13.3, 5.2⟩

/-- `zoomToApply = (mapZoom / 4 * 3) + (mapZoom / 4 * 1) * viewWidth / 1500`
(source line 299). -/
def zoomToApply (mapZoom viewWidth : ℚ) : ℚ :=
  mapZoom / 4 * 3 + mapZoom / 4 * 1 * viewWidth / 1500

/-- Day-of-week of a day number (`Date.prototype.getDay`, 0 = Sunday;
1970-01-01 was a Thursday). -/
def dowOfDay (z : Int) : Int := (z + 4) % 7

/-- Week key of `renderLineChart` (source lines 363-364): on a UTC-midnight
date, `setDate(getDate() - getDay() + 1)` shifts the day number by
`1 - getDay()`. -/
def codeWeekAnchor (z : Int) : Int := z - dowOfDay z + 1

/-- The Monday anchor of the ISO week containing `z`: the previous-or-same
Monday (spec-side definition of Monday-anchored ISO bucketing). -/
def isoMondayAnchor (z : Int) : Int := z - (dowOfDay z + 6) % 7

/-- `Map.set` with a rational increment, for the line-chart buckets. -/
def bumpQ (acc : List (String × ℚ)) (k : String) (w : ℚ) : List (String × ℚ) :=
  match acc with
  | [] => [(k, w)]
  | (q, v) :: rest => if q = k then (q, v + w) :: rest else (q, v) :: bumpQ rest k w

/-- Day-granularity branch of `renderLineChart` (source lines 349-356):
bucket by the parsed ISO date string, adding 1 per row; rows with an empty
date field are skipped, and a malformed nonempty field propagates the thrown
exception. -/
def dayBuckets (data : List Row) : Except Unit (List (String × ℚ)) :=
  data.foldlM (fun acc row => do
    match ← parseDateCoreDay row.device_created_day with
    | none => pure acc
    | some z => pure (bumpQ acc (isoDateOfDay z) 1)) []

/-- Week-granularity branch of `renderLineChart` (source lines 357-370):
bucket by the code's week anchor, adding 1/7 per row.  `new Date(dateStr)`
re-parses the ISO string the parser just produced; in the represented range
this recovers the same day number (the civil round trip makes `isoDateOfDay`
injective there), so the model reuses the day number directly. -/
def codeWeekBuckets (data : List Row) : Except Unit (List (String × ℚ)) :=
  data.foldlM (fun acc row => do
    match ← parseDateCoreDay row.device_created_day with
    | none => pure acc
    | some z => pure (bumpQ acc (isoDateOfDay (codeWeekAnchor z)) (1 / 7))) []

/-- The grouping stage of `renderLineChart` (source lines 339-370):
`earliestMs` is the dataset epoch `earliestDateObj`, `v0`/`v1` the slider
handle offsets; `totalSelectedRangeDays < 365` selects day granularity. -/
def renderLineChartBuckets (earliestMs v0 v1 : Int) (data : List Row) :
    Except Unit (List (String × ℚ)) :=
  if dayDifference (addDays earliestMs v0) (addDays earliestMs v1) < 365 then
    dayBuckets data
  else codeWeekBuckets data

/-- Week bucketing as the specification describes it: ISO weeks anchored on
the previous-or-same Monday, 1/7 per row (spec-side comparison definition). -/
def isoWeekBucketsSpec (data : List Row) : Except Unit (List (String × ℚ)) :=
  data.foldlM (fun acc row => do
    match ← parseDateCoreDay row.device_created_day with
    | none => pure acc
    | some z => pure (bumpQ acc (isoDateOfDay (isoMondayAnchor z)) (1 / 7))) []

/-- Pointwise: the code's filter predicate holds exactly when the
specification's retention condition does. -/
theorem rowPasses_iff (fs : FilterState) (row : Row) :
    rowPasses fs row = true ↔ specRetains fs row := by
  unfold rowPasses specRetains
  split_ifs with h1 h2
  · simp only [Bool.false_eq_true, false_iff]
    rintro ⟨hr, -, -⟩
    rcases hr with hr | hr
    · exact h1.1 hr
    · exact h1.2 hr
  · simp only [Bool.false_eq_true, false_iff]
    rintro ⟨-, hc, -⟩
    rcases hc with hc | hc
    · exact h2.1 hc
    · exact h2.2 hc
  · rcases hd : row.offsetDays with _ | d
    · dsimp only
      simp only [Bool.false_eq_true, false_iff]
      rintro ⟨-, -, e, hde, -⟩
      exact Option.noConfusion hde
    · dsimp only
      split_ifs with h3
      · simp only [Bool.false_eq_true, false_iff]
        rintro ⟨-, -, e, hde, he1, he2⟩
        obtain rfl := Option.some.inj hde
        omega
      · constructor
        · intro _
          have hA : fs.regionFilter = "" ∨ row.region = fs.regionFilter := by tauto
          have hB : fs.deviceTypeFilter = "" ∨
              row.device_type_category = fs.deviceTypeFilter := by tauto
          exact ⟨hA, hB, d, rfl, by omega, by omega⟩
        · intro _
          rfl

/-- The code predicate is the `decide` of the spec condition. -/
theorem rowPasses_eq_decide (fs : FilterState) (row : Row) :
    rowPasses fs row = decide (specRetains fs row) := by
  by_cases hs : specRetains fs row
  · rw [(rowPasses_iff fs row).mpr hs, decide_eq_true hs]
  · rw [decide_eq_false hs]
    cases hcase : rowPasses fs row
    · rfl
    · exact absurd ((rowPasses_iff fs row).mp hcase) hs

/-- **C1.** The filter engine retains a row iff (region filter unset or the
row's region matches) and (category filter unset or the row's
`device_type_category` matches) and the row's day offset is defined and lies
in the inclusive `offsetRange`; retained rows appear in the original dataset
order (the output is the order-preserving sublist of rows satisfying exactly
the spec's condition). -/
theorem filter_engine_retention (rawData : List Row) (fs : FilterState) :
    filterData rawData fs
        = rawData.filter (fun row => decide (specRetains fs row)) ∧
      (filterData rawData fs).Sublist rawData := by
  constructor
  · unfold filterData
    exact List.filter_congr (fun row _ => rowPasses_eq_decide fs row)
  · exact List.filter_sublist rawData

/-- Filtering by a pointwise-stronger predicate yields at most as many
elements. -/
theorem length_filter_mono {α : Type} (l : List α) (p q : α → Bool)
    (h : ∀ a, p a = true → q a = true) :
    (l.filter p).length ≤ (l.filter q).length := by
  induction l with
  | nil => simp
  | cons a l ih =>
      by_cases hp : p a = true
      · simp [List.filter_cons, hp, h a hp]
        omega
      · by_cases hq : q a = true <;> simp [List.filter_cons, hp, hq] <;> omega

/-- **C7.** For a fixed region and category filter, narrowing the offset
range (raising `min` and/or lowering `max`) never enlarges the filter
engine's output. -/
theorem filter_engine_monotone (rawData : List Row) (fs fsN : FilterState)
    (hr : fsN.regionFilter = fs.regionFilter)
    (hc : fsN.deviceTypeFilter = fs.deviceTypeFilter)
    (hmin : fs.offsetMin ≤ fsN.offsetMin) (hmax : fsN.offsetMax ≤ fs.offsetMax) :
    (filterData rawData fsN).length ≤ (filterData rawData fs).length := by
  unfold filterData
  apply length_filter_mono
  intro row hrow
  rw [rowPasses_iff] at hrow ⊢
  obtain ⟨h1, h2, d, hd, h3, h4⟩ := hrow
  rw [hr] at h1
  rw [hc] at h2
  exact ⟨h1, h2, d, hd, by omega, by omega⟩

/-- Witness for C7 at a concrete store and a concretely narrowed range. -/
theorem filter_engine_monotone_witness :
    (0 : Int) ≤ 1 ∧ (3 : Int) ≤ 4 ∧
      (filterData [⟨"Wien", "A", "01.01.2022", "Mobile", some 2⟩] ⟨"", "", 1, 3⟩).length
        ≤ (filterData [⟨"Wien", "A", "01.01.2022", "Mobile", some 2⟩] ⟨"", "", 0, 4⟩).length :=
  ⟨by decide, by decide,
    filter_engine_monotone [⟨"Wien", "A", "01.01.2022", "Mobile", some 2⟩]
      ⟨"", "", 0, 4⟩ ⟨"", "", 1, 3⟩ rfl rfl (by decide) (by decide)⟩

/-- On data every row of which passes the filter, the fold of
`renderMapChart`'s counting step equals the fold of the same step with the
two re-applied filter checks removed. -/
theorem regionCounts_fold_eq (fs : FilterState) :
    ∀ (data : List Row) (acc : List (String × Nat)),
      (∀ row ∈ data, rowPasses fs row = true) →
      data.foldl (fun acc row =>
        if row.region = "" then acc
        else if fs.regionFilter ≠ "" ∧ row.region ≠ fs.regionFilter then acc
        else if fs.deviceTypeFilter ≠ "" ∧ row.device_type_category ≠ fs.deviceTypeFilter
          then acc
        else bump acc row.region) acc
      = data.foldl (fun acc row =>
        if row.region = "" then acc else bump acc row.region) acc := by
  intro data
  induction data with
  | nil => intro acc _; rfl
  | cons r l ih =>
      intro acc hall
      have hr := (rowPasses_iff fs r).mp (hall r (List.mem_cons_self r l))
      have hrest : ∀ row ∈ l, rowPasses fs row = true :=
        fun row hm => hall row (List.mem_cons_of_mem _ hm)
      simp only [List.foldl_cons]
      have hstep :
          (if r.region = "" then acc
           else if fs.regionFilter ≠ "" ∧ r.region ≠ fs.regionFilter then acc
           else if fs.deviceTypeFilter ≠ "" ∧ r.device_type_category ≠ fs.deviceTypeFilter
             then acc
           else bump acc r.region)
          = (if r.region = "" then acc else bump acc r.region) := by
        obtain ⟨h1, h2, -⟩ := hr
        by_cases hreg : r.region = ""
        · simp [hreg]
        · have hC1 : ¬(fs.regionFilter ≠ "" ∧ r.region ≠ fs.regionFilter) := by tauto
          have hC2 : ¬(fs.deviceTypeFilter ≠ "" ∧
              r.device_type_category ≠ fs.deviceTypeFilter) := by tauto
          simp [hreg, hC1, hC2]
      rw [hstep]
      exact ih _ hrest

/-- **C10.** On any output of the filter engine, the region and device-type
checks re-applied inside the map aggregator are redundant: the per-region
counts equal the counts computed without them, so the map chart reflects the
same filtered subset as the other charts. -/
theorem map_inner_filter_redundant (rawData : List Row) (fs : FilterState) :
    regionCountsMap fs (filterData rawData fs)
      = regionCountsNoInner (filterData rawData fs) := by
  unfold regionCountsMap regionCountsNoInner
  exact regionCounts_fold_eq fs _ []
    (fun row hrow => List.of_mem_filter hrow)

/-- `bump` adds exactly one to the total count. -/
theorem sumCounts_bump (acc : List (String × Nat)) (k : String) :
    sumCounts (bump acc k) = sumCounts acc + 1 := by
  induction acc with
  | nil => rfl
  | cons p rest ih =>
      obtain ⟨q, v⟩ := p
      by_cases h : q = k <;> simp [bump, h, sumCounts] at * <;> omega

/-- Total count of a counting fold, with an arbitrary accumulator. -/
theorem sumCounts_countBy_go (key : Row → String) :
    ∀ (data : List Row) (acc : List (String × Nat)),
      sumCounts (data.foldl (fun acc row => bump acc (key row)) acc)
        = sumCounts acc + data.length := by
  intro data
  induction data with
  | nil => intro acc; simp
  | cons r l ih =>
      intro acc
      simp only [List.foldl_cons, List.length_cons]
      rw [ih, sumCounts_bump]
      omega

/-- `bump` keeps the key list unchanged for a known key and appends an unseen
key at the end. -/
theorem keys_bump (acc : List (String × Nat)) (k : String) :
    (bump acc k).map Prod.fst =
      if k ∈ acc.map Prod.fst then acc.map Prod.fst
      else acc.map Prod.fst ++ [k] := by
  induction acc with
  | nil => simp [bump]
  | cons p rest ih =>
      obtain ⟨q, v⟩ := p
      by_cases h : q = k
      · simp [bump, h]
      · have hne : ¬ k = q := fun hk => h hk.symm
        by_cases hm : k ∈ rest.map Prod.fst <;>
          simp [bump, h, hne, hm, ih]

/-- Key order of a counting fold: insertion order of first encounter,
relative to an arbitrary starting key list. -/
theorem keys_countBy_go (key : Row → String) :
    ∀ (data : List Row) (acc : List (String × Nat)),
      (data.foldl (fun acc row => bump acc (key row)) acc).map Prod.fst
        = (data.map key).foldl
            (fun a k => if k ∈ a then a else a ++ [k]) (acc.map Prod.fst) := by
  intro data
  induction data with
  | nil => intro acc; rfl
  | cons r l ih =>
      intro acc
      simp only [List.foldl_cons, List.map_cons]
      rw [ih, keys_bump]

/-- **C5.** The category (bar) and product (pie) aggregators place every row
in exactly one bucket — the sums of their emitted counts equal the input
length — rows with an absent/empty field key to the literal `"Unknown"`
bucket, and the emitted label order is the insertion order of first
encounter of each key (stability for equal inputs holds because the
aggregators are functions of the row list alone). -/
theorem category_product_aggregators_partition (data : List Row) :
    sumCounts (renderBarChartCounts data) = data.length ∧
    sumCounts (renderPieChartCounts data) = data.length ∧
    (renderBarChartCounts data).map Prod.fst = dedupFirst (data.map barKey) ∧
    (renderPieChartCounts data).map Prod.fst = dedupFirst (data.map pieKey) ∧
    (∀ row : Row, row.device_type_category = "" → barKey row = "Unknown") ∧
    (∀ row : Row, row.product = "" → pieKey row = "Unknown") := by
  refine ⟨?_, ?_, ?_, ?_, ?_, ?_⟩
  · simpa [renderBarChartCounts, countBy, sumCounts]
      using sumCounts_countBy_go barKey data []
  · simpa [renderPieChartCounts, countBy, sumCounts]
      using sumCounts_countBy_go pieKey data []
  · simpa [renderBarChartCounts, countBy, dedupFirst]
      using keys_countBy_go barKey data []
  · simpa [renderPieChartCounts, countBy, dedupFirst]
      using keys_countBy_go pieKey data []
  · intro row h
    simp [barKey, h]
  · intro row h
    simp [pieKey, h]

/-- Witness for C5's conditional clauses at concrete rows. -/
theorem category_product_aggregators_witness :
    barKey ⟨"Wien", "A", "x", "", none⟩ = "Unknown" ∧
      pieKey ⟨"Wien", "", "x", "Mobile", none⟩ = "Unknown" ∧
      sumCounts (renderBarChartCounts
        [⟨"Wien", "A", "x", "", none⟩, ⟨"Tirol", "B", "y", "Mobile", some 0⟩]) = 2 :=
  ⟨(category_product_aggregators_partition []).2.2.2.2.1 _ rfl,
   (category_product_aggregators_partition []).2.2.2.2.2 _ rfl,
   (category_product_aggregators_partition
     [⟨"Wien", "A", "x", "", none⟩, ⟨"Tirol", "B", "y", "Mobile", some 0⟩]).1⟩

/-- **C6.** `dayDifference` inverts `addDays`: advancing any date by `n ≥ 0`
days and measuring the whole-day distance gives back exactly `n`. -/
theorem dayOffset_addDays_inverse (d n : Int) (h : 0 ≤ n) :
    dayDifference d (addDays d n) = n := by
  rw [addDays_eq]
  simp only [dayDifference, msPerDay]
  omega

/-- Witness for C6 at a concrete date (a ms value just past 1970-01-02) and
`n = 5`. -/
theorem dayOffset_addDays_inverse_witness :
    (0 : Int) ≤ 5 ∧ dayDifference 86400123 (addDays 86400123 5) = 5 :=
  ⟨by decide, dayOffset_addDays_inverse 86400123 5 (by decide)⟩

/-- **C2 (code bug).** The guards return `null` (`ok none`) for an empty
string and for missing parts, but a date string whose three parts are
present and non-numeric reaches `toISOString()` on an Invalid Date, which
throws a `RangeError` (`error ()`) instead of returning `null`. -/
theorem parseDate_malformed_throws :
    parseDateDDMMYYYY "" = .ok none ∧
      parseDateDDMMYYYY "1.2" = .ok none ∧
      parseDateDDMMYYYY "a.b.c" = .error () :=
  ⟨rfl, rfl, rfl⟩

/-- A nonempty all-digit string — the "numeric part" of the claims. -/
def numericStr (s : String) : Prop :=
  s.data ≠ [] ∧ s.data.all Char.isDigit = true

instance numericStrDecidable (s : String) : Decidable (numericStr s) :=
  inferInstanceAs (Decidable (s.data ≠ [] ∧ s.data.all Char.isDigit = true))

/-- An all-digit list is its own digit-prefix. -/
theorem takeWhile_digits (l : List Char) (hl : l.all Char.isDigit = true) :
    l.takeWhile Char.isDigit = l := by
  induction l with
  | nil => rfl
  | cons c cs ih =>
      simp only [List.all_cons, Bool.and_eq_true] at hl
      simp [List.takeWhile_cons, hl.1, ih hl.2]

/-- `parseInt` on a numeric string returns its digit value. -/
theorem parseIntJS_numeric (s : String) (h : numericStr s) :
    parseIntJS s = some (digitsVal s.data : Int) := by
  unfold parseIntJS
  rw [takeWhile_digits s.data h.2, if_neg h.1]

/-- `ToNumber` on a numeric string returns its digit value. -/
theorem toNumberJS_numeric (s : String) (h : numericStr s) :
    toNumberJS s = some (digitsVal s.data : Int) := by
  unfold toNumberJS
  rw [if_pos ⟨h.1, h.2⟩]

/-- A numeric string is nonempty. -/
theorem numericStr_ne (s : String) (h : numericStr s) : s ≠ "" := by
  intro hs
  subst hs
  exact h.1 rfl

/-- **C9.** A date string whose three `.`-separated parts are all present
and numeric is never rejected: the normalizer returns the ISO rendering of
the calendar-rollover day `jsMakeDay year (month - 1) day` (so in particular
out-of-range days and months roll over instead of yielding `"no date"`). -/
theorem parseDate_numeric_rollover (s : String)
    (hd : numericStr (datePart s 0))
    (hm : numericStr (datePart s 1))
    (hy : numericStr (datePart s 2)) :
    parseDateDDMMYYYY s
      = .ok (some (isoDateOfDay (jsMakeDay
          (digitsVal (datePart s 2).data)
          ((digitsVal (datePart s 1).data : Int) - 1)
          (digitsVal (datePart s 0).data)))) := by
  have hs : s ≠ "" := by
    intro h
    subst h
    exact hd.1 rfl
  unfold parseDateDDMMYYYY parseDateCoreDay
  rw [if_neg hs]
  rw [if_neg (by
    simp only [not_or]
    exact ⟨numericStr_ne _ hd, numericStr_ne _ hm, numericStr_ne _ hy⟩)]
  rw [parseIntJS_numeric _ hd, parseIntJS_numeric _ hm, toNumberJS_numeric _ hy]
  simp only [Option.map_some', mkDateMs]
  rw [Int.mul_ediv_cancel _ (by norm_num [msPerDay])]
  rfl

/-- Witness for C9: `"32.01.2022"` rolls over to 1 February 2022. -/
theorem parseDate_numeric_rollover_witness :
    parseDateDDMMYYYY "32.01.2022" = .ok (some "2022-02-01") := by
  rw [parseDate_numeric_rollover "32.01.2022" (by decide) (by decide) (by decide)]
  rfl

/-- Two `addDays` offsets from the same base are `dayDifference`-measured by
their difference. -/
theorem dayDifference_addDays_pair (e a b : Int) :
    dayDifference (addDays e a) (addDays e b) = b - a := by
  rw [addDays_eq, addDays_eq]
  simp only [dayDifference, msPerDay]
  omega

/-- **C3 counterexample.** With a 365-day selected range (week granularity)
and the single row dated Sunday 2 January 2022, the code buckets the row
under `"2022-01-03"` — the *following* Monday — while ISO-week bucketing
anchored on Monday puts it under `"2021-12-27"`; the two bucket lists
differ, so the aggregator does not bucket by ISO week. -/
theorem lineChart_iso_week_cex :
    renderLineChartBuckets 0 0 365 [⟨"Wien", "A", "02.01.2022", "Mobile", some 1⟩]
        = .ok [("2022-01-03", 1 / 7)] ∧
      isoWeekBucketsSpec [⟨"Wien", "A", "02.01.2022", "Mobile", some 1⟩]
        = .ok [("2021-12-27", 1 / 7)] ∧
      ("2022-01-03" : String) ≠ "2021-12-27" :=
  ⟨rfl, rfl, by decide⟩

/-- **C3 (amended).** The aggregator buckets by calendar day exactly when the
selected range `v1 - v0` spans fewer than 365 days, and otherwise by week
with 1/7 per row — but the week anchor is `date - getDay() + 1`: the ISO
Monday anchor for Monday–Saturday dates, and the *following* Monday (ISO
anchor + 7) for Sunday dates. -/
theorem lineChart_granularity_amended (e v0 v1 : Int) (data : List Row) :
    (v1 - v0 < 365 → renderLineChartBuckets e v0 v1 data = dayBuckets data) ∧
      (365 ≤ v1 - v0 → renderLineChartBuckets e v0 v1 data = codeWeekBuckets data) ∧
      (∀ z : Int, (dowOfDay z ≠ 0 → codeWeekAnchor z = isoMondayAnchor z) ∧
        (dowOfDay z = 0 → codeWeekAnchor z = isoMondayAnchor z + 7)) := by
  refine ⟨?_, ?_, ?_⟩
  · intro h
    unfold renderLineChartBuckets
    rw [dayDifference_addDays_pair, if_pos (by omega)]
  · intro h
    unfold renderLineChartBuckets
    rw [dayDifference_addDays_pair, if_neg (by omega)]
  · intro z
    constructor <;> intro h <;>
      simp only [codeWeekAnchor, isoMondayAnchor, dowOfDay] at * <;> omega

/-- Witness for C3's amended granularity switch at ranges of exactly 364 and
365 days, and for the anchor characterisation at a Sunday and a Monday. -/
theorem lineChart_granularity_witness :
    renderLineChartBuckets 0 0 364 [⟨"Wien", "A", "02.01.2022", "Mobile", some 1⟩]
        = dayBuckets [⟨"Wien", "A", "02.01.2022", "Mobile", some 1⟩] ∧
      renderLineChartBuckets 0 0 365 [⟨"Wien", "A", "02.01.2022", "Mobile", some 1⟩]
        = codeWeekBuckets [⟨"Wien", "A", "02.01.2022", "Mobile", some 1⟩] ∧
      codeWeekAnchor 18994 = isoMondayAnchor 18994 + 7 ∧
      codeWeekAnchor 18995 = isoMondayAnchor 18995 :=
  ⟨(lineChart_granularity_amended 0 0 364 _).1 (by decide),
   (lineChart_granularity_amended 0 0 365 _).2.1 (by decide),
   ((lineChart_granularity_amended 0 0 365 []).2.2 18994).2 (by decide),
   ((lineChart_granularity_amended 0 0 365 []).2.2 18995).1 (by decide)⟩

/-- **C4 counterexample.** A region absent from the population table gets the
fallback population 1, so the emitted relative value is `count / 1 * 100 =
100 * count`, not `count`: for the single row in region `"Atlantis"` with
raw count 1 the map emits 100, and `100 ≠ 1`. -/
theorem map_relative_fallback_cex :
    regionCountsMap ⟨"", "", 0, 0⟩ [⟨"Atlantis", "A", "01.01.2022", "Mobile", some 0⟩]
        = [("Atlantis", 1)] ∧
      zValuesRel true [("Atlantis", 1)] = [("Atlantis", 100)] ∧
      (100 : ℚ) ≠ 1 :=
  ⟨rfl, by
    have hn : citicenPerRegion "Atlantis" = none := rfl
    simp [zValuesRel, hn], by norm_num⟩

/-- **C4 (amended).** In relative mode each emitted value is
`count / population * 100` computed with the fallback population 1: for a
region in the table with population `p` it is exactly `c / p * 100`, and for
a region absent from the table it is `c / 1 * 100 = 100 * c` (not `c`). -/
theorem map_relative_values_amended (counts : List (String × Nat)) (r : String)
    (c i : Nat) (h : counts[i]? = some (r, c)) :
    (zValuesRel true counts)[i]?
        = some (r, (c : ℚ) / ((citicenPerRegion r).getD 1) * 100) ∧
      (∀ p : ℚ, citicenPerRegion r = some p →
        (c : ℚ) / ((citicenPerRegion r).getD 1) * 100 = (c : ℚ) / p * 100) ∧
      (citicenPerRegion r = none →
        (c : ℚ) / ((citicenPerRegion r).getD 1) * 100 = 100 * (c : ℚ)) := by
  refine ⟨?_, ?_, ?_⟩
  · unfold zValuesRel
    rw [List.getElem?_map, h]
    rfl
  · intro p hp
    rw [hp]
    rfl
  · intro hp
    rw [hp]
    show (c : ℚ) / 1 * 100 = 100 * (c : ℚ)
    rw [div_one]
    ring

/-- Witness for C4's amended value formula at the in-table region `"Wien"`
with count 3. -/
theorem map_relative_values_witness :
    (zValuesRel true [("Wien", 3)])[0]? = some ("Wien", (3 : ℚ) / 2000000 * 100) := by
  have h := map_relative_values_amended [("Wien", 3)] "Wien" 3 0 rfl
  rw [h.1, h.2.1 2000000 rfl]
  norm_num

/-- **C8.** The geographic viewport is a pure function of the region filter:
a selected region with a stored view yields that view, no selection yields
the fixed country-wide default `(47.7, 13.3)` at base zoom 5.2, and the
applied zoom is always `baseZoom * 0.75 + baseZoom * 0.25 * width / 1500`. -/
theorem map_viewport_pure (r : String) (v : RView) (w : ℚ)
    (hr : regionView r = some v) (hne : r ≠ "") :
    mapCenterZoom r = v ∧
      mapCenterZoom "" = ⟨47.7, 13.3, 5.2⟩ ∧
      (∀ z : ℚ, zoomToApply z w = z * 0.75 + z * 0.25 * w / 1500) := by
  refine ⟨?_, rfl, ?_⟩
  · unfold mapCenterZoom
    rw [hr]
    exact if_neg hne
  · intro z
    unfold zoomToApply
    ring

/-- Witness for C8 at the stored region `"Wien"` and display width 1500. -/
theorem map_viewport_pure_witness :
    regionView "Wien" = some ⟨48.210033, 16.363449, 8⟩ ∧
      ("Wien" : String) ≠ "" ∧
      mapCenterZoom "Wien" = ⟨48.210033, 16.363449, 8⟩ ∧
      zoomToApply 8 1500 = 8 * 0.75 + 8 * 0.25 * 1500 / 1500 :=
  ⟨rfl, by decide,
   (map_viewport_pure "Wien" ⟨48.210033, 16.363449, 8⟩ 1500 rfl (by decide)).1,
   (map_viewport_pure "Wien" ⟨48.210033, 16.363449, 8⟩ 1500 rfl (by decide)).2.2 8⟩
